import Mathlib

/-!
Verification of the w3af request-dispatch and fault-tolerance core:
a shallow embedding of `w3af/core/data/dc/utils/multipart.py` and
`w3af/core/controllers/plugins/plugin.py`, with theorems settling the
spec's claims about the multipart encoder, the fault-tolerant transport
proxy, the parallel dispatcher, the finding store helper, and plugin
equality.
-/

/- ## Multipart body encoder (w3af/core/data/dc/utils/multipart.py) -/

/-- A file-like value held by a multipart container token: a named byte
stream with content readable from the start and an open/closed state.
Mirrors the attributes the encoder uses: `name`, `closed`, `seek(0)`
followed by `read()` (modelled as `content`). -/
structure FileLike where
  name : String
  content : String
  closed : Bool
deriving DecidableEq, Repr

/-- A value held by a container token, split exactly by the tests the
source performs: `is_file_like(value)` is true only for `file`;
`hasattr(value, 'isFile')` without being file-like is `marker`;
everything else is a `scalar` string. -/
inductive TokenValue where
  | scalar (s : String)
  | file (f : FileLike)
  | marker (f : FileLike)
deriving DecidableEq, Repr

/-- A named token of a multipart container (`token.get_name()`,
`token.get_value()`). -/
structure Token where
  name : String
  value : TokenValue
deriving DecidableEq, Repr

/-- `is_file_like` from `w3af.core.controllers.misc.io`: true exactly for
genuinely file-like values. -/
def is_file_like : TokenValue → Bool
  | .file _ => true
  | _ => false

/-- `hasattr(value, 'isFile')` on a value that is not file-like: true
exactly for marker values. -/
def has_isFile_attr : TokenValue → Bool
  | .marker _ => true
  | _ => false

/-- Modelled from the spec: `smart_str` (w3af.core.data.misc.encoding, not
under src/) coerces a value to a byte-safe string using the declared
encoding; on the String model of already-decoded text it is the
identity. -/
def smart_str (s : String) : String := s

/-- `_split_vars_files(data)`: partition the container's tokens, in
iteration order, into the scalar list `v_vars` and the file list
`v_files`. An already-closed file-like value contributes `(name, '')` to
`v_vars`; a marker value goes to `v_files` unconditionally. -/
def _split_vars_files : List Token → List (String × String) × List (String × FileLike)
  | [] => ([], [])
  | token :: rest =>
    let pname := token.name
    let value := token.value
    let enc_pname := smart_str pname
    let (v_vars, v_files) := _split_vars_files rest
    match value with
    | .file fd =>
      if fd.closed then ((enc_pname, "") :: v_vars, v_files)
      else (v_vars, (enc_pname, fd) :: v_files)
    | .marker fd => (v_vars, (enc_pname, fd) :: v_files)
    | .scalar s => ((enc_pname, smart_str s) :: v_vars, v_files)

/-- Modelled from the Python stdlib `mimetypes.guess_type` table used by
the source (an external collaborator): a best-effort extension-to-MIME
guess, `none` when no guess is available. -/
def mimetypes_guess_type (filename : String) : Option String :=
  if filename.endsWith ".txt" then some "text/plain"
  else if filename.endsWith ".html" then some "text/html"
  else if filename.endsWith ".png" then some "image/png"
  else if filename.endsWith ".jpg" then some "image/jpeg"
  else if filename.endsWith ".gif" then some "image/gif"
  else if filename.endsWith ".pdf" then some "application/pdf"
  else none

/-- The chunk `multipart_encode` appends to the buffer for one scalar
variable `(key, value)`. -/
def encode_var_part (boundary : String) (kv : String × String) : String :=
  "--" ++ boundary ++ "\r\n"
    ++ "Content-Disposition: form-data; name=\"" ++ kv.1 ++ "\""
    ++ "\r\n\r\n" ++ kv.2 ++ "\r\n"

/-- The chunk `multipart_encode` appends to the buffer for one file entry
`(key, fd)`: seek to start, basename-only filename (split on the path
separator), guessed-or-octet-stream Content-Type, full stream content. -/
def encode_file_part (boundary : String) (kf : String × FileLike) : String :=
  let fd := kf.2
  let filename := (fd.name.splitOn "/").getLastD ""
  let guessed_mime := mimetypes_guess_type filename
  let content_type := guessed_mime.getD "application/octet-stream"
  "--" ++ boundary ++ "\r\n"
    ++ "Content-Disposition: form-data; name=\"" ++ kf.1 ++ "\"; filename=\"" ++ filename ++ "\"\r\n"
    ++ "Content-Type: " ++ content_type ++ "\r\n"
    ++ "\r\n" ++ fd.content ++ "\r\n"

/-- `multipart_encode(_vars, files, boundary, _buffer)`: append every
scalar part, then every file part, then the closing boundary marker, to
the buffer; return `(boundary, buffer)`. The `boundary=None` branch
(random boundary generation) is outside every call site in scope:
`encode_as_multipart` always supplies a boundary. -/
def multipart_encode (_vars : List (String × String)) (files : List (String × FileLike))
    (boundary : String) (_buffer : String) : String × String :=
  let buf1 := _vars.foldl (fun b kv => b ++ encode_var_part boundary kv) _buffer
  let buf2 := files.foldl (fun b kf => b ++ encode_file_part boundary kf) buf1
  let buf3 := buf2 ++ "--" ++ boundary ++ "--\r\n\r\n"
  (boundary, buf3)

/-- `encode_as_multipart(multipart_container, boundary)`: split the
container's tokens and encode them with the given boundary. -/
def encode_as_multipart (multipart_container : List Token) (boundary : String) : String :=
  let (v_vars, v_files) := _split_vars_files multipart_container
  let (_, data) := multipart_encode v_vars v_files boundary ""
  data

/- ## Order characterization of the encoder -/

/-- The `v_vars` entry a single token contributes, if any: scalars and
already-closed file-like values land here. -/
def var_entry (t : Token) : Option (String × String) :=
  match t.value with
  | .scalar s => some (smart_str t.name, smart_str s)
  | .file fd => if fd.closed then some (smart_str t.name, "") else none
  | .marker _ => none

/-- The `v_files` entry a single token contributes, if any: open
file-like values and marker values land here. -/
def file_entry (t : Token) : Option (String × FileLike) :=
  match t.value with
  | .scalar _ => none
  | .file fd => if fd.closed then none else some (smart_str t.name, fd)
  | .marker fd => some (smart_str t.name, fd)

/-- The part a single token contributes to the body, under the source's
partition rule for its value. -/
def token_part (boundary : String) (t : Token) : String :=
  match t.value with
  | .scalar s => encode_var_part boundary (smart_str t.name, smart_str s)
  | .file fd =>
    if fd.closed then encode_var_part boundary (smart_str t.name, "")
    else encode_file_part boundary (smart_str t.name, fd)
  | .marker fd => encode_file_part boundary (smart_str t.name, fd)

/-- Follows the spec's words for claim C4: a body in which the parts
appear in exactly the container's token iteration order, regardless of
each token's kind, followed by the closing boundary marker. -/
def encode_in_token_order (tokens : List Token) (boundary : String) : String :=
  String.join (tokens.map (token_part boundary)) ++ "--" ++ boundary ++ "--\r\n\r\n"

theorem foldl_str_append (l : List String) :
    ∀ init : String, l.foldl (fun r s => r ++ s) init = init ++ String.join l := by
  induction l with
  | nil => intro init; simp [String.join]
  | cons x xs ih =>
    intro init
    have hj : String.join (x :: xs) = x ++ String.join xs := by
      show (x :: xs).foldl (fun r s => r ++ s) "" = x ++ String.join xs
      rw [List.foldl_cons, ih, String.empty_append]
    rw [List.foldl_cons, ih, hj, String.append_assoc]

theorem foldl_append_map {α : Type} (g : α → String) (l : List α) (init : String) :
    l.foldl (fun b x => b ++ g x) init = init ++ String.join (l.map g) := by
  have h : l.foldl (fun b x => b ++ g x) init = (l.map g).foldl (fun r s => r ++ s) init := by
    induction l generalizing init with
    | nil => rfl
    | cons x xs ih => simp [List.foldl_cons, ih]
  rw [h, foldl_str_append]

theorem split_vars_files_eq (tokens : List Token) :
    _split_vars_files tokens = (tokens.filterMap var_entry, tokens.filterMap file_entry) := by
  induction tokens with
  | nil => rfl
  | cons t rest ih =>
    cases t with
    | mk name value =>
      cases value with
      | scalar s => simp [_split_vars_files, ih, var_entry, file_entry]
      | file fd =>
        by_cases hc : fd.closed <;>
          simp [_split_vars_files, ih, var_entry, file_entry, hc]
      | marker fd => simp [_split_vars_files, ih, var_entry, file_entry]

/-- The container used to falsify claim C4: a file token followed by a
scalar token. -/
def c4_container : List Token :=
  [⟨"f", .file ⟨"r.txt", "X", false⟩⟩, ⟨"a", .scalar "x"⟩]

/-- C4 counterexample: on a container whose iteration order is
file-token first, scalar-token second, the encoder does NOT emit the
parts in the container's token iteration order — the scalar part is
emitted before the file part. -/
theorem encode_as_multipart_not_token_order :
    encode_as_multipart c4_container "B" ≠ encode_in_token_order c4_container "B" := by
  decide

/-- C4 amended: the parts emitted by the encoder appear grouped by kind —
first every scalar-class part (scalar tokens and closed file tokens) in
the container's token iteration order, then every file-class part (open
file tokens and marker tokens) in the container's token iteration order,
then the closing boundary marker. Token order is preserved only within
each group. -/
theorem encode_as_multipart_groups_vars_then_files (tokens : List Token) (boundary : String) :
    encode_as_multipart tokens boundary =
      String.join ((tokens.filterMap var_entry).map (encode_var_part boundary)) ++
        String.join ((tokens.filterMap file_entry).map (encode_file_part boundary)) ++
        ("--" ++ boundary ++ "--\r\n\r\n") := by
  show (multipart_encode (_split_vars_files tokens).1 (_split_vars_files tokens).2 boundary "").2 = _
  rw [split_vars_files_eq]
  show ((tokens.filterMap file_entry).foldl (fun b kf => b ++ encode_file_part boundary kf)
      ((tokens.filterMap var_entry).foldl (fun b kv => b ++ encode_var_part boundary kv) ""))
      ++ "--" ++ boundary ++ "--\r\n\r\n" = _
  rw [foldl_append_map, foldl_append_map, String.empty_append]
  simp [String.append_assoc]

/-- C7: encoding a container with the single scalar token
`("user", "bob")` and boundary `"B"` yields exactly the expected
multipart body, and encoding an empty container with any boundary yields
only the closing boundary marker. -/
theorem encode_as_multipart_concrete_bodies :
    encode_as_multipart [⟨"user", .scalar "bob"⟩] "B" =
      "--B\r\nContent-Disposition: form-data; name=\"user\"\r\n\r\nbob\r\n--B--\r\n\r\n" ∧
    ∀ boundary : String,
      encode_as_multipart [] boundary = "--" ++ boundary ++ "--\r\n\r\n" := by
  refine ⟨by decide, fun boundary => ?_⟩
  show ("" ++ "--" ++ boundary ++ "--\r\n\r\n") = _
  rw [String.empty_append]

/-- C8: a token whose value is file-like but already closed at encode
time is routed to the scalar list as `(name, "")`, so the encoder does
not touch the closed stream and the token contributes a scalar part
under its name with an empty value — encoding it is identical to
encoding a scalar token with the empty string. -/
theorem closed_file_gives_empty_scalar (name : String) (fd : FileLike) (rest : List Token)
    (boundary : String) (h : fd.closed = true) :
    _split_vars_files (⟨name, .file fd⟩ :: rest) =
      ((name, "") :: (_split_vars_files rest).1, (_split_vars_files rest).2) ∧
    encode_as_multipart [⟨name, .file fd⟩] boundary =
      encode_as_multipart [⟨name, .scalar ""⟩] boundary := by
  constructor
  · simp [_split_vars_files, smart_str, h]
  · show (multipart_encode (_split_vars_files [⟨name, .file fd⟩]).1
        (_split_vars_files [⟨name, .file fd⟩]).2 boundary "").2 = _
    simp [_split_vars_files, smart_str, h, multipart_encode, encode_as_multipart]

/-- Witness for C8 at a concrete closed file token. -/
theorem closed_file_gives_empty_scalar_witness :
    _split_vars_files [⟨"upload", .file ⟨"report.txt", "hi", true⟩⟩] =
      ([("upload", "")], []) ∧
    encode_as_multipart [⟨"upload", .file ⟨"report.txt", "hi", true⟩⟩] "B" =
      encode_as_multipart [⟨"upload", .scalar ""⟩] "B" :=
  closed_file_gives_empty_scalar "upload" ⟨"report.txt", "hi", true⟩ [] "B" rfl

/-- C10: a token whose value merely exposes the file-marker capability
(`isFile` attribute, not file-like) is placed in the file list
unconditionally — even when its `closed` flag is set, the
closed-file-to-empty-scalar rule is not applied — and its emitted part
reads the stream from the start, uses the basename-only filename, and a
guessed-or-octet-stream Content-Type. -/
theorem marker_value_gives_file_part (name : String) (fd : FileLike) (rest : List Token)
    (boundary : String) :
    _split_vars_files (⟨name, .marker fd⟩ :: rest) =
      ((_split_vars_files rest).1, (name, fd) :: (_split_vars_files rest).2) ∧
    encode_as_multipart [⟨name, .marker fd⟩] boundary =
      "--" ++ boundary ++ "\r\n"
        ++ "Content-Disposition: form-data; name=\"" ++ name ++ "\"; filename=\""
        ++ (fd.name.splitOn "/").getLastD "" ++ "\"\r\n"
        ++ "Content-Type: "
        ++ ((mimetypes_guess_type ((fd.name.splitOn "/").getLastD "")).getD
              "application/octet-stream") ++ "\r\n"
        ++ "\r\n" ++ fd.content ++ "\r\n"
        ++ "--" ++ boundary ++ "--\r\n\r\n" := by
  constructor
  · simp [_split_vars_files, smart_str]
  · show (multipart_encode (_split_vars_files [⟨name, .marker fd⟩]).1
        (_split_vars_files [⟨name, .marker fd⟩]).2 boundary "").2 = _
    simp [_split_vars_files, smart_str, multipart_encode, encode_file_part,
          String.append_assoc]

/- ## Plugin base class and transport proxy (w3af/core/controllers/plugins/plugin.py) -/

/-- `HTTPRequestException`: the single-request failure raised when one
HTTP attempt fails; carries a human-readable reason (its `str()`). -/
structure HTTPRequestException where
  reason : String
deriving DecidableEq, Repr

/-- The errors a transport operation can raise: a single-request failure
(an `HTTPRequestException`), the aggregate too-many-requests-failed
error, or any other exception class. Only `single` is a subclass of
`HTTPRequestException`. -/
inductive UrlOpenerError where
  | single (hre : HTTPRequestException)
  | aggregate (detail : String)
  | other (detail : String)
deriving DecidableEq, Repr

/-- An HTTP response as seen by plugin code. -/
structure HTTPResponse where
  code : Nat
  body : String
  uri : String
deriving DecidableEq, Repr

/-- Modelled from the spec: `new_no_content_resp` (from
`w3af.core.data.url.helpers`, not under src/) builds the synthetic
no-content (204, empty body) response for the given target. -/
def new_no_content_resp (uri : String) : HTTPResponse :=
  ⟨204, "", uri⟩

/-- `Plugin.handle_url_error(uri, http_exception)`: the default recovery
policy. Emits one `om.out.error` diagnostic built from the plugin name,
the uri and the exception, and returns `(False, new_no_content_resp(uri))`.
The emitted diagnostics are returned as a list — the output channel is a
collaborator, modelled by collecting the messages passed to it. -/
def handle_url_error (plugin_name : String) (uri : String)
    (http_exception : HTTPRequestException) : List String × Bool × HTTPResponse :=
  let msg := "The " ++ plugin_name ++ " plugin got an error while requesting \""
    ++ uri ++ "\". Reason: \"" ++ http_exception.reason ++ "\""
  ([msg], (false, new_no_content_resp uri))

/-- `UrlOpenerProxy.__getattr__`'s wrapper `meth`, for an operation of the
underlying transport. `attr` is the transport operation (taking the first
positional argument and the remaining arguments, returning a result or
raising a `UrlOpenerError`); `handler` is the owning plugin's
`handle_url_error` (returning the diagnostics it emits plus the
`(re_raise, result)` pair). Only an `HTTPRequestException` is caught:
then `uri = args[0]`, the handler runs, and either the original failure
is re-raised or the substitute result is returned. Every other error
propagates untouched, with no handler call and no diagnostics. The first
component of the result is the list of diagnostics emitted during the
call. -/
def urlOpenerProxyMeth {α β : Type}
    (attr : α → List α → Except UrlOpenerError β)
    (handler : α → HTTPRequestException → List String × Bool × β)
    (arg0 : α) (rest : List α) : List String × Except UrlOpenerError β :=
  match attr arg0 rest with
  | .ok r => ([], .ok r)
  | .error (.single hre) =>
    let uri := arg0
    let (msgs, re_raise, result) := handler uri hre
    if re_raise then (msgs, .error (.single hre)) else (msgs, .ok result)
  | .error e => ([], .error e)

/-- A knowledge-base entry as appended by `kb_append_uniq`. -/
structure KBEntry where
  location_a : String
  location_b : String
  info : String
deriving DecidableEq, Repr

/-- Modelled from the spec: the shared store's atomic append-if-unique
(`kb.kb.append_uniq`, not under src/) — appends the finding unless an
equal entry is already present, and reports whether it was newly
added. The `filter_by` key selects the uniqueness criterion; any
criterion identifies two identical entries, which is what the identical
duplicate calls of the claims exercise. -/
def kb_store_append_uniq (store : List KBEntry) (e : KBEntry) :
    List KBEntry × Bool :=
  if e ∈ store then (store, false) else (store ++ [e], true)

/-- `Plugin.kb_append_uniq(location_a, location_b, info, filter_by)`:
delegate to the store's append-if-unique; forward `info` to
`om.out.report_finding` exactly when the store reports it newly added.
State is passed explicitly: the store contents and the list of findings
forwarded to the reporting channel. -/
def kb_append_uniq (store : List KBEntry) (reports : List String)
    (location_a location_b info : String) (_filter_by : String) :
    List KBEntry × List String :=
  let res := kb_store_append_uniq store ⟨location_a, location_b, info⟩
  let added_to_kb := res.2
  if added_to_kb then (res.1, reports ++ [info]) else (res.1, reports)

/-- A plugin instance as far as equality is concerned: its concrete class
name plus arbitrary instance configuration state. -/
structure PluginInstance where
  class_name : String
  options : List (String × String)
deriving DecidableEq, Repr

/-- `Plugin.__eq__(self, other)`: compare only the concrete class
names. -/
def plugin_eq (self other : PluginInstance) : Bool :=
  self.class_name == other.class_name

/-- `Plugin._send_mutants_in_threads(func, iterable, callback)`: the
loop body — invoke `callback` on each `(mutant, http_response)` pair the
pool yields, in completion order. `completed` is the sequence the
pool's `imap_unordered` (wrapped with `return_args`) yields; the callback
is an effectful Python function, modelled as a state transformer applied
once per yielded pair. -/
def _send_mutants_in_threads {α β σ : Type} (callback : σ → α → β → σ)
    (s0 : σ) (completed : List (α × β)) : σ :=
  completed.foldl (fun s p => callback s p.1 p.2) s0

/- ## Theorems: transport proxy and error policy -/

/-- C1: when a call through the proxy raises a single-request failure,
the proxy extracts the target from the first positional argument,
invokes the owning plugin's handler on it with the failure, and then
either re-raises the very same failure (when the handler asks to
re-raise) or returns the handler's substitute result as a normal
result. -/
theorem proxy_single_failure_policy {α β : Type}
    (attr : α → List α → Except UrlOpenerError β)
    (handler : α → HTTPRequestException → List String × Bool × β)
    (arg0 : α) (rest : List α) (hre : HTTPRequestException)
    (h : attr arg0 rest = .error (.single hre)) :
    ((handler arg0 hre).2.1 = true →
      urlOpenerProxyMeth attr handler arg0 rest =
        ((handler arg0 hre).1, .error (.single hre))) ∧
    ((handler arg0 hre).2.1 = false →
      urlOpenerProxyMeth attr handler arg0 rest =
        ((handler arg0 hre).1, .ok (handler arg0 hre).2.2)) := by
  rcases hh : handler arg0 hre with ⟨msgs, rr, res⟩
  refine ⟨fun hb => ?_, fun hb => ?_⟩ <;> simp at hb <;>
    simp [urlOpenerProxyMeth, h, hh, hb]

/-- The transport operation used by the proxy witnesses: always fails
with a single-request timeout. -/
def w_attr_single : String → List String → Except UrlOpenerError HTTPResponse :=
  fun _ _ => .error (.single ⟨"timeout"⟩)

/-- Witness for C1 at a concrete failing transport call under the
default (never re-raise) policy. -/
theorem proxy_single_failure_policy_witness :
    urlOpenerProxyMeth w_attr_single
        (fun uri hre => handle_url_error "web_spider" uri hre) "http://t/" [] =
      (["The web_spider plugin got an error while requesting \"http://t/\". Reason: \"timeout\""],
       .ok (new_no_content_resp "http://t/")) :=
  (proxy_single_failure_policy w_attr_single
      (fun uri hre => handle_url_error "web_spider" uri hre)
      "http://t/" [] ⟨"timeout"⟩ rfl).2 rfl

/-- C2: the default `handle_url_error` never asks to re-raise, emits
exactly one diagnostic naming the plugin, the target and the failure
reason, and substitutes the synthetic no-content response built for the
target. -/
theorem handle_url_error_default (plugin_name uri : String)
    (hre : HTTPRequestException) :
    (handle_url_error plugin_name uri hre).2.1 = false ∧
    (handle_url_error plugin_name uri hre).1 =
      ["The " ++ plugin_name ++ " plugin got an error while requesting \"" ++ uri
        ++ "\". Reason: \"" ++ hre.reason ++ "\""] ∧
    (handle_url_error plugin_name uri hre).2.2 = new_no_content_resp uri :=
  ⟨rfl, rfl, rfl⟩

/-- C5: an error that is not of the single-request-failure class — in
particular the aggregate too-many-requests-failed error — is never
intercepted by the proxy: it propagates unchanged, with no handler call
and no diagnostics, whatever the plugin's recovery policy is. -/
theorem proxy_non_single_propagates {α β : Type}
    (attr : α → List α → Except UrlOpenerError β)
    (handler : α → HTTPRequestException → List String × Bool × β)
    (arg0 : α) (rest : List α) (e : UrlOpenerError)
    (h : attr arg0 rest = .error e) (hn : ∀ hre, e ≠ .single hre) :
    urlOpenerProxyMeth attr handler arg0 rest = ([], .error e) := by
  cases e with
  | single hre => exact absurd rfl (hn hre)
  | aggregate d => simp [urlOpenerProxyMeth, h]
  | other d => simp [urlOpenerProxyMeth, h]

/-- The transport operation used by the C5 witness: raises the aggregate
too-many-requests-failed error. -/
def w_attr_aggregate : String → List String → Except UrlOpenerError HTTPResponse :=
  fun _ _ => .error (.aggregate "too many requests failed")

/-- Witness for C5: the aggregate failure propagates through the proxy
unchanged even under the default suppress-everything policy. -/
theorem proxy_non_single_propagates_witness :
    urlOpenerProxyMeth w_attr_aggregate
        (fun uri hre => handle_url_error "web_spider" uri hre) "http://t/" [] =
      ([], .error (.aggregate "too many requests failed")) :=
  proxy_non_single_propagates w_attr_aggregate
    (fun uri hre => handle_url_error "web_spider" uri hre) "http://t/" []
    (.aggregate "too many requests failed") rfl
    (fun _ hcontra => UrlOpenerError.noConfusion hcontra)

/- ## Theorems: finding store, plugin equality, parallel dispatch -/

/-- C6: `kb_append_uniq` forwards the finding to the reporting channel
exactly when the store's append-if-unique reports it newly added; and
two calls with identical arguments, starting from a store not yet
holding the finding, leave exactly one store entry for it and exactly
one reporting-channel invocation. -/
theorem kb_append_uniq_reports_iff_new (store : List KBEntry)
    (reports : List String) (a b i fb : String)
    (h : (⟨a, b, i⟩ : KBEntry) ∉ store) :
    (∀ s r, (kb_append_uniq s r a b i fb).2 =
        if (kb_store_append_uniq s ⟨a, b, i⟩).2 then r ++ [i] else r) ∧
    (kb_append_uniq (kb_append_uniq store reports a b i fb).1
        (kb_append_uniq store reports a b i fb).2 a b i fb).1.count ⟨a, b, i⟩ = 1 ∧
    (kb_append_uniq (kb_append_uniq store reports a b i fb).1
        (kb_append_uniq store reports a b i fb).2 a b i fb).2 = reports ++ [i] := by
  have h1 : kb_append_uniq store reports a b i fb =
      (store ++ [⟨a, b, i⟩], reports ++ [i]) := by
    simp [kb_append_uniq, kb_store_append_uniq, h]
  have hmem : (⟨a, b, i⟩ : KBEntry) ∈ store ++ [⟨a, b, i⟩] := by simp
  have h2 : kb_append_uniq (store ++ [⟨a, b, i⟩]) (reports ++ [i]) a b i fb =
      (store ++ [⟨a, b, i⟩], reports ++ [i]) := by
    simp [kb_append_uniq, kb_store_append_uniq, hmem]
  refine ⟨fun s r => ?_, ?_, ?_⟩
  · by_cases hm : (⟨a, b, i⟩ : KBEntry) ∈ s <;>
      simp [kb_append_uniq, kb_store_append_uniq, hm]
  · rw [h1]
    show (kb_append_uniq (store ++ [⟨a, b, i⟩]) (reports ++ [i]) a b i fb).1.count _ = 1
    rw [h2]
    show (store ++ [(⟨a, b, i⟩ : KBEntry)]).count (⟨a, b, i⟩ : KBEntry) = 1
    rw [List.count_append, List.count_eq_zero.mpr h]
    simp
  · rw [h1]
    show (kb_append_uniq (store ++ [⟨a, b, i⟩]) (reports ++ [i]) a b i fb).2 = _
    rw [h2]

/-- Witness for C6: two identical reports starting from an empty store
leave one entry and one forwarded finding. -/
theorem kb_append_uniq_reports_iff_new_witness :
    (kb_append_uniq (kb_append_uniq [] [] "la" "lb" "vuln" "VAR").1
        (kb_append_uniq [] [] "la" "lb" "vuln" "VAR").2 "la" "lb" "vuln" "VAR").1.count
        ⟨"la", "lb", "vuln"⟩ = 1 ∧
    (kb_append_uniq (kb_append_uniq [] [] "la" "lb" "vuln" "VAR").1
        (kb_append_uniq [] [] "la" "lb" "vuln" "VAR").2 "la" "lb" "vuln" "VAR").2 =
      ["vuln"] :=
  ⟨(kb_append_uniq_reports_iff_new [] [] "la" "lb" "vuln" "VAR" (by simp)).2.1,
   (kb_append_uniq_reports_iff_new [] [] "la" "lb" "vuln" "VAR" (by simp)).2.2⟩

/-- C9: plugin equality compares exactly the concrete class names — true
if and only if the names coincide, so instances of one class with
different configuration are equal and instances of different classes
never are. -/
theorem plugin_eq_iff_same_class (p q : PluginInstance) :
    (plugin_eq p q = true ↔ p.class_name = q.class_name) ∧
    (∀ n o1 o2, plugin_eq ⟨n, o1⟩ ⟨n, o2⟩ = true) := by
  refine ⟨by simp [plugin_eq], fun n o1 o2 => by simp [plugin_eq]⟩

/-- C3: assuming the pool's unordered map yields exactly one
`(input, func input)` pair per input (in an arbitrary completion order,
i.e. a permutation), the dispatch loop invokes the callback exactly
`iterable.length` times and the multiset of `(input, result)` pairs it
delivers equals the multiset of `(i, func i)` over the inputs. The
callback trace is obtained by running the loop with the recording
callback. -/
theorem send_mutants_callback_once_per_input {α β : Type} (func : α → β)
    (iterable : List α) (completed : List (α × β))
    (h : completed.Perm (iterable.map (fun i => (i, func i)))) :
    (_send_mutants_in_threads (fun s a b => s ++ [(a, b)]) ([] : List (α × β))
        completed).length = iterable.length ∧
    (_send_mutants_in_threads (fun s a b => s ++ [(a, b)]) ([] : List (α × β))
        completed).Perm (iterable.map (fun i => (i, func i))) := by
  have htrace : ∀ (l s0 : List (α × β)),
      _send_mutants_in_threads (fun s a b => s ++ [(a, b)]) s0 l = s0 ++ l := by
    intro l
    induction l with
    | nil => intro s0; simp [_send_mutants_in_threads]
    | cons p ps ih =>
      intro s0
      show _send_mutants_in_threads (fun s a b => s ++ [(a, b)]) (s0 ++ [(p.1, p.2)]) ps =
        s0 ++ p :: ps
      rw [ih, List.append_assoc]
      simp
  rw [htrace completed []]
  simp only [List.nil_append]
  refine ⟨?_, h⟩
  have := h.length_eq
  simpa using this

/-- Witness for C3: two inputs completing out of submission order still
produce one callback per input, with the right pairs. -/
theorem send_mutants_callback_once_per_input_witness :
    (_send_mutants_in_threads (fun s a b => s ++ [(a, b)]) ([] : List (Nat × Nat))
        [(2, 3), (1, 2)]).length = ([1, 2] : List Nat).length ∧
    (_send_mutants_in_threads (fun s a b => s ++ [(a, b)]) ([] : List (Nat × Nat))
        [(2, 3), (1, 2)]).Perm (([1, 2] : List Nat).map (fun i => (i, i + 1))) :=
  send_mutants_callback_once_per_input (fun i => i + 1) [1, 2] [(2, 3), (1, 2)]
    (by decide)
